import Mathlib

/-!
Verification of the Nanoleaf integration (light entity and config flow).

The entity methods `turn_on`, `turn_off` and `update` from
`homeassistant/components/nanoleaf/light.py` are embedded as pure
functions.  Commands sent to the device client (`self._light.<attr> = v`
and `self._light.brightness_transition(...)`) are recorded as a list of
`DeviceCall`s in the order the Python code issues them; an exception
raised mid-method is recorded alongside the calls issued before it.
Python float arithmetic (`int(b * 2.55)`, `int(x / 2.55)`) is embedded
exactly: `2.55` denotes the IEEE-754 binary64 value 2871044762448691/2^50
and the product/quotient is rounded to 53 significand bits with
round-to-nearest, ties-to-even, before truncation.
-/

namespace Nanoleaf

/-- Numerator of the IEEE-754 binary64 value nearest to 2.55: the Python
float literal `2.55` denotes exactly `dblM / 2 ^ 50`. -/
def dblM : ℕ := 2871044762448691

/-- Fuel-driven helper computing the floor of the base-2 logarithm. -/
def log2Aux : ℕ → ℕ → ℕ
  | 0, _ => 0
  | f + 1, n => if n ≤ 1 then 0 else log2Aux f (n / 2) + 1

/-- Floor of the base-2 logarithm (0 at 0); 256 units of fuel cover every
number below `2 ^ 256`, far beyond all quantities arising here. -/
def natLog2 (n : ℕ) : ℕ := log2Aux 256 n

/-- Round the rational `n / d` to the nearest integer, ties to even:
the rounding mode of IEEE-754 binary64 arithmetic. -/
def rneDiv (n d : ℕ) : ℕ :=
  let q := n / d
  let r := n % d
  if 2 * r < d then q
  else if d < 2 * r then q + 1
  else if q % 2 = 0 then q else q + 1

/-- Exact embedding of Python `int(b * 2.55)` for a natural `b`
(used by the `brightness` property, light.py line 84).  The real product
`b * dblM / 2 ^ 50` is rounded to 53 significand bits (round to nearest,
ties to even) and then truncated.  When the product has at most 53 bits it
is exact and no rounding occurs. -/
def fmulFloor (b : ℕ) : ℕ :=
  if b = 0 then 0
  else
    let n := b * dblM
    let L := natLog2 n
    if L ≤ 52 then n / 2 ^ 50
    else rneDiv n (2 ^ (L - 52)) / 2 ^ (102 - L)

/-- Exact embedding of Python `int(x / 2.55)` for a natural `x`
(used by `turn_on`, light.py lines 177 and 184).  The exact quotient
`x * 2 ^ 50 / dblM` is rounded to 53 significand bits (round to nearest,
ties to even) and then truncated.  The exponent is found on the quotient
scaled by `2 ^ 60` so that it stays a natural number. -/
def fdivFloor (x : ℕ) : ℕ :=
  if x = 0 then 0
  else
    let e := natLog2 (x * 2 ^ 110 / dblM)
    rneDiv (x * 2 ^ (162 - e)) dblM / 2 ^ (112 - e)

/-- Embedding of Python `int(q)` on rationals: truncation toward zero
(`Int.div` is the truncating division). -/
def pyIntTrunc (q : ℚ) : ℤ := q.num.tdiv (q.den : ℤ)

/-- Modelled from the spec: `homeassistant.util.color.
color_temperature_mired_to_kelvin` is not under src/; per the spec the
Kelvin/mired conversions use the standard reciprocal relation
(`math.floor(1000000 / mired)`). -/
def miredToKelvin (m : ℚ) : ℤ := Int.floor (1000000 / m)

/-- Modelled from the spec: `homeassistant.util.color.
color_temperature_kelvin_to_mired` is not under src/; per the spec it is
the reciprocal relation `math.floor(1000000 / kelvin)`, here on the
naturals reported by the device (floor division). -/
def kelvinToMired (k : ℕ) : ℕ := 1000000 / k

/-- One command issued to the device client `self._light`. -/
inductive DeviceCall
  | setHue (h : ℤ)
  | setSaturation (s : ℤ)
  | setColorTemperature (k : ℤ)
  | setOn (b : Bool)
  | setBrightness (v : ℕ)
  | brightnessTransition (target : ℕ) (duration : ℤ)
  | setEffect (e : String)
  deriving DecidableEq

/-- The Python exception kinds `turn_on` can raise locally:
`ValueError` for an unknown effect, and the `TypeError` Python would
raise on `e not in None` when no effect list has been cached yet. -/
inductive PyError
  | valueError
  | typeError
  deriving DecidableEq

/-- The mutable fields of `NanoleafLight` as set in `__init__`
(light.py lines 59-73). -/
structure LightState where
  unique_id : Option String
  available : Bool
  brightness : Option ℕ
  color_temp : Option ℕ
  effect : Option String
  effects_list : Option (List String)
  firmwareVersion : Option String
  manufacturer : Option String
  model : Option String
  name : String
  hs_color : Option (ℕ × ℕ)
  state : Option Bool
  deriving DecidableEq

/-- Embedding of `NanoleafLight.__init__`: every cached field starts as `None`,
availability starts `True`. -/
def mkLight (name : String) : LightState :=
  { unique_id := none, available := true, brightness := none,
    color_temp := none, effect := none, effects_list := none,
    firmwareVersion := none, manufacturer := none, model := none,
    name := name, hs_color := none, state := none }

/-- The `brightness` property (light.py lines 80-85):
`int(self._brightness * 2.55)` when the cached value is present. -/
def brightnessProp (s : LightState) : Option ℕ :=
  match s.brightness with
  | some b => some (fmulFloor b)
  | none => none

/-- The `color_temp` property (light.py lines 87-92): Kelvin-to-mired
conversion of the cached value when present. -/
def colorTempProp (s : LightState) : Option ℕ :=
  match s.color_temp with
  | some k => some (kelvinToMired k)
  | none => none

/-- The `effect` property (light.py lines 105-108). -/
def effectProp (s : LightState) : Option String := s.effect

/-- The `effect_list` property (light.py lines 110-113). -/
def effectListProp (s : LightState) : Option (List String) := s.effects_list

/-- The `hs_color` property (light.py lines 149-152). -/
def hsColorProp (s : LightState) : Option (ℕ × ℕ) := s.hs_color

/-- The keyword arguments of `turn_on` (light.py lines 161-165), each
`None` when absent.  `brightness` is the host's integer 0-255 scale. -/
structure TurnOnArgs where
  brightness : Option ℕ
  hs_color : Option (ℚ × ℚ)
  color_temp : Option ℚ
  effect : Option String
  transition : Option ℚ
  deriving DecidableEq

/-- Calls from `if hs_color:` (light.py lines 167-170).  A present pair is
always truthy in Python. -/
def hsCalls (a : TurnOnArgs) : List DeviceCall :=
  match a.hs_color with
  | none => []
  | some (h, s) => [DeviceCall.setHue (pyIntTrunc h), DeviceCall.setSaturation (pyIntTrunc s)]

/-- Calls from `if color_temp_mired:` (light.py lines 171-172); a zero
mired value is falsy and skipped. -/
def ctCalls (a : TurnOnArgs) : List DeviceCall :=
  match a.color_temp with
  | none => []
  | some m => if m = 0 then [] else [DeviceCall.setColorTemperature (miredToKelvin m)]

/-- Transition branch of `turn_on` (light.py lines 174-180): ramp to
`int(brightness / 2.55)`, or to 100 when brightness is absent or falsy. -/
def rampCalls (a : TurnOnArgs) (t : ℚ) : List DeviceCall :=
  match a.brightness with
  | some b =>
      if b = 0 then [DeviceCall.brightnessTransition 100 (pyIntTrunc t)]
      else [DeviceCall.brightnessTransition (fdivFloor b) (pyIntTrunc t)]
  | none => [DeviceCall.brightnessTransition 100 (pyIntTrunc t)]

/-- No-transition branch of `turn_on` (light.py lines 181-184): switch on,
then set brightness when it is truthy. -/
def immediateCalls (a : TurnOnArgs) : List DeviceCall :=
  DeviceCall.setOn true ::
    (match a.brightness with
     | some b => if b = 0 then [] else [DeviceCall.setBrightness (fdivFloor b)]
     | none => [])

/-- Embedding of `if transition:` (light.py line 174): a `0` duration is falsy and takes
the immediate branch. -/
def switchCalls (a : TurnOnArgs) : List DeviceCall :=
  match a.transition with
  | none => immediateCalls a
  | some t => if t = 0 then immediateCalls a else rampCalls a t

/-- All device calls `turn_on` issues before reaching the effect block
(light.py lines 167-184), in program order. -/
def preEffectCalls (a : TurnOnArgs) : List DeviceCall :=
  hsCalls a ++ ctCalls a ++ switchCalls a

/-- Embedding of `NanoleafLight.turn_on` (light.py lines 159-191): the device calls
issued in order, paired with the exception raised, if any.  The effect
block runs last: a truthy effect name absent from the cached
`_effects_list` raises `ValueError` after the earlier calls have already
been issued; membership in a `None` list would raise `TypeError`. -/
def turn_on (s : LightState) (a : TurnOnArgs) : List DeviceCall × Option PyError :=
  match a.effect with
  | none => (preEffectCalls a, none)
  | some e =>
      if e = "" then (preEffectCalls a, none)
      else
        match s.effects_list with
        | none => (preEffectCalls a, some PyError.typeError)
        | some l =>
            if e ∈ l then (preEffectCalls a ++ [DeviceCall.setEffect e], none)
            else (preEffectCalls a, some PyError.valueError)

/-- Embedding of `NanoleafLight.turn_off` (light.py lines 193-199): a truthy transition
ramps brightness to 0; otherwise the light is switched off immediately. -/
def turn_off (transition : Option ℚ) : List DeviceCall :=
  match transition with
  | none => [DeviceCall.setOn false]
  | some t =>
      if t = 0 then [DeviceCall.setOn false]
      else [DeviceCall.brightnessTransition 0 (pyIntTrunc t)]

/-- The fields of the device info snapshot's `state` object that
`update` reads. -/
structure InfoState where
  onValue : Bool
  brightness : ℕ
  ct : ℕ
  hue : ℕ
  sat : ℕ
  deriving DecidableEq

/-- The fields of the device info snapshot that `update` reads. -/
structure Info where
  firmwareVersion : String
  manufacturer : String
  model : String
  serialNo : String
  state : InfoState
  effectsList : List String
  select : String
  deriving DecidableEq

/-- Embedding of `NanoleafLight.update` (light.py lines 201-235).  The fetch
`self._light.info` either succeeds with a snapshot (`some info`) or
raises `Unavailable` (`none`); the `except` clause catches the latter,
logs, and only marks the entity unavailable, so the function is total.
On success the device-reported selected effect is kept only when it is a
member of the device-reported effect list (the synthetic Solid name
filter); otherwise color temperature and hue/saturation are cached from
the state fields instead. -/
def update (s : LightState) (fetch : Option Info) : LightState :=
  match fetch with
  | none => { s with available := false }
  | some info =>
      let el := info.effectsList
      let eff := if info.select ∈ el then some info.select else none
      { s with
        available := true
        firmwareVersion := some info.firmwareVersion
        manufacturer := some info.manufacturer
        model := some info.model
        unique_id := some info.serialNo
        brightness := some info.state.brightness
        effects_list := some el
        effect := eff
        color_temp := if eff = none then some info.state.ct else none
        hs_color := if eff = none then some (info.state.hue, info.state.sat) else none
        state := some info.state.onValue }

/-- Discovery data accumulated by `async_step_zeroconf`
(config_flow.py lines 47-54). -/
structure DiscoveryInfo where
  host : String
  port : ℕ
  id : String
  name : String
  deriving DecidableEq

/-- The data of a finalized config entry: the discovery data plus the
acquired token (config_flow.py lines 92-93). -/
structure EntryData where
  host : String
  port : ℕ
  id : String
  name : String
  token : String
  deriving DecidableEq

/-- Outcome of `nanoleaf.authorize` (config_flow.py lines 83-88): a token,
or one of the two caught exception kinds. -/
inductive AuthResult
  | success (tok : String)
  | notAuthorizingNewTokens
  | unavailable
  deriving DecidableEq

/-- Result of a config-flow step: a redisplayed form with error codes, or
a created entry. -/
inductive FlowResult
  | showForm (stepId : String) (errors : List (String × String))
  | createEntry (title : String) (data : EntryData)
  deriving DecidableEq

/-- Embedding of `NanoleafConfigFlow.async_step_zeroconf_confirm`
(config_flow.py lines 66-100).  Without user input the informational form
is shown.  With user input, token acquisition is attempted: the two
failure kinds map to their error codes and reshow the form; success
creates an entry titled by the device name whose data is the discovery
data plus the token. -/
def async_step_zeroconf_confirm (di : DiscoveryInfo) (userInput : Option Unit)
    (auth : AuthResult) : FlowResult :=
  match userInput with
  | none => FlowResult.showForm ("zeroconf_confirm") []
  | some _ =>
      match auth with
      | AuthResult.notAuthorizingNewTokens =>
          FlowResult.showForm ("zeroconf_confirm") [(("base"), ("failed_to_request_token"))]
      | AuthResult.unavailable =>
          FlowResult.showForm ("zeroconf_confirm") [(("base"), ("cannot_connect"))]
      | AuthResult.success tok =>
          FlowResult.createEntry di.name
            { host := di.host, port := di.port, id := di.id, name := di.name, token := tok }

/-- Classifier for the commands that change the light's power or direct
brightness: `self._light.on = ...` and `self._light.brightness = ...`. -/
def isPowerCall : DeviceCall → Bool
  | DeviceCall.setOn _ => true
  | DeviceCall.setBrightness _ => true
  | _ => false

/-- Classifier for the effect command `self._light.effect = ...`. -/
def isEffectCall : DeviceCall → Bool
  | DeviceCall.setEffect _ => true
  | _ => false

lemma hsCalls_shape (a : TurnOnArgs) (c : DeviceCall) (hc : c ∈ hsCalls a) :
    isPowerCall c = false ∧ isEffectCall c = false := by
  rcases h : a.hs_color with _ | ⟨p1, p2⟩ <;> simp [hsCalls, h] at hc
  rcases hc with rfl | rfl <;> exact ⟨rfl, rfl⟩

lemma ctCalls_shape (a : TurnOnArgs) (c : DeviceCall) (hc : c ∈ ctCalls a) :
    isPowerCall c = false ∧ isEffectCall c = false := by
  rcases h : a.color_temp with _ | m
  · simp [ctCalls, h] at hc
  · by_cases hm : m = 0
    · simp [ctCalls, h, hm] at hc
    · simp [ctCalls, h, hm] at hc
      subst hc; exact ⟨rfl, rfl⟩

lemma rampCalls_shape (a : TurnOnArgs) (t : ℚ) (c : DeviceCall) (hc : c ∈ rampCalls a t) :
    isPowerCall c = false ∧ isEffectCall c = false := by
  rcases h : a.brightness with _ | b
  · simp [rampCalls, h] at hc
    subst hc; exact ⟨rfl, rfl⟩
  · by_cases hb : b = 0 <;> simp [rampCalls, h, hb] at hc <;>
      (subst hc; exact ⟨rfl, rfl⟩)

lemma immediateCalls_shape (a : TurnOnArgs) (c : DeviceCall) (hc : c ∈ immediateCalls a) :
    isEffectCall c = false := by
  rcases h : a.brightness with _ | b
  · simp [immediateCalls, h] at hc
    subst hc; rfl
  · by_cases hb : b = 0 <;> simp [immediateCalls, h, hb] at hc
    · subst hc; rfl
    · rcases hc with rfl | rfl <;> rfl

lemma switchCalls_shape (a : TurnOnArgs) (c : DeviceCall) (hc : c ∈ switchCalls a) :
    isEffectCall c = false := by
  rcases h : a.transition with _ | t
  · exact immediateCalls_shape a c (by simpa [switchCalls, h] using hc)
  · by_cases ht : t = 0
    · exact immediateCalls_shape a c (by simpa [switchCalls, h, ht] using hc)
    · exact (rampCalls_shape a t c (by simpa [switchCalls, h, ht] using hc)).2

lemma switchCalls_truthy_power (a : TurnOnArgs) (t : ℚ) (h : a.transition = some t)
    (ht : t ≠ 0) (c : DeviceCall) (hc : c ∈ switchCalls a) : isPowerCall c = false := by
  exact (rampCalls_shape a t c (by simpa [switchCalls, h, ht] using hc)).1

lemma preEffectCalls_no_effect (a : TurnOnArgs) (c : DeviceCall)
    (hc : c ∈ preEffectCalls a) : isEffectCall c = false := by
  simp only [preEffectCalls, List.mem_append] at hc
  rcases hc with (h1 | h2) | h3
  · exact (hsCalls_shape a c h1).2
  · exact (ctCalls_shape a c h2).2
  · exact switchCalls_shape a c h3

lemma turn_on_mem_of_pre (s : LightState) (a : TurnOnArgs) (c : DeviceCall)
    (hc : c ∈ preEffectCalls a) : c ∈ (turn_on s a).1 := by
  rcases he : a.effect with _ | e
  · simpa [turn_on, he] using hc
  · by_cases h0 : e = ""
    · simpa [turn_on, he, h0] using hc
    · rcases hl : s.effects_list with _ | l
      · simpa [turn_on, he, h0, hl] using hc
      · by_cases hm : e ∈ l
        · simp only [turn_on, he, hl, if_neg h0, if_pos hm, List.mem_append]
          exact Or.inl hc
        · simpa [turn_on, he, h0, hl, hm] using hc

lemma turn_on_mem_shape (s : LightState) (a : TurnOnArgs) (c : DeviceCall)
    (hc : c ∈ (turn_on s a).1) :
    c ∈ preEffectCalls a ∨ ∃ x, c = DeviceCall.setEffect x := by
  rcases he : a.effect with _ | e
  · exact Or.inl (by simpa [turn_on, he] using hc)
  · by_cases h0 : e = ""
    · exact Or.inl (by simpa [turn_on, he, h0] using hc)
    · rcases hl : s.effects_list with _ | l
      · exact Or.inl (by simpa [turn_on, he, h0, hl] using hc)
      · by_cases hm : e ∈ l
        · have hc2 : c ∈ preEffectCalls a ∨ c = DeviceCall.setEffect e := by
            simpa [turn_on, he, h0, hl, hm, List.mem_append] using hc
          rcases hc2 with h | h
          · exact Or.inl h
          · exact Or.inr ⟨e, h⟩
        · exact Or.inl (by simpa [turn_on, he, h0, hl, hm] using hc)

/-- Claim C5: when the info fetch raises `Unavailable`, `update` catches it
(it is total and returns a state rather than propagating), availability
becomes false, and every other cached field keeps its previous value. -/
theorem claim_C5 (s : LightState) :
    (update s none).available = false ∧
    (update s none).brightness = s.brightness ∧
    (update s none).color_temp = s.color_temp ∧
    (update s none).effect = s.effect ∧
    (update s none).effects_list = s.effects_list ∧
    (update s none).hs_color = s.hs_color ∧
    (update s none).state = s.state ∧
    (update s none).firmwareVersion = s.firmwareVersion ∧
    (update s none).manufacturer = s.manufacturer ∧
    (update s none).model = s.model ∧
    (update s none).unique_id = s.unique_id ∧
    (update s none).name = s.name :=
  ⟨rfl, rfl, rfl, rfl, rfl, rfl, rfl, rfl, rfl, rfl, rfl, rfl⟩

/-- Claim C6: `turn_on` with a (truthy) transition and no brightness ramps
to target 100; with brightness 128 it ramps to `int(128 / 2.55) = 50`,
which coincides with `round(128 / 2.55)`. -/
theorem claim_C6 (s : LightState) (t : ℚ) (ht : t ≠ 0) :
    turn_on s { brightness := none, hs_color := none, color_temp := none,
                effect := none, transition := some t }
      = ([DeviceCall.brightnessTransition 100 (pyIntTrunc t)], none) ∧
    turn_on s { brightness := some 128, hs_color := none, color_temp := none,
                effect := none, transition := some t }
      = ([DeviceCall.brightnessTransition (fdivFloor 128) (pyIntTrunc t)], none) ∧
    fdivFloor 128 = 50 ∧
    round ((128:ℚ) / ((2.55:ℚ))) = 50 := by
  refine ⟨?_, ?_, by decide, ?_⟩
  · simp [turn_on, preEffectCalls, hsCalls, ctCalls, switchCalls, rampCalls, ht]
  · simp [turn_on, preEffectCalls, hsCalls, ctCalls, switchCalls, rampCalls, ht]
  · norm_num [round_eq]

theorem claim_C6_witness :
    turn_on (mkLight ("nl")) { brightness := some 128, hs_color := none,
                               color_temp := none, effect := none,
                               transition := some ((5:ℚ)) }
      = ([DeviceCall.brightnessTransition 50 5], none) := by
  rw [(claim_C6 (mkLight ("nl")) 5 (by norm_num)).2.1]
  decide

/-- Claim C7: `turn_off` with a (truthy) transition issues only a
brightness ramp to 0 — no immediate off command — while without a
transition it issues the immediate off command. -/
theorem claim_C7 (t : ℚ) (ht : t ≠ 0) :
    turn_off (some t) = [DeviceCall.brightnessTransition 0 (pyIntTrunc t)] ∧
    turn_off none = [DeviceCall.setOn false] := by
  constructor
  · simp [turn_off, ht]
  · rfl

theorem claim_C7_witness :
    turn_off (some ((3:ℚ))) = [DeviceCall.brightnessTransition 0 3] := by
  rw [(claim_C7 3 (by norm_num)).1]
  decide

/-- Claim C8: on pairing confirmation with user input present, the two
token-acquisition failure kinds reshow the form with their error codes
(`failed_to_request_token`, `cannot_connect`), and success produces a
finalized entry whose data carries host, port, name and the acquired
token (together with the discovered id). -/
theorem claim_C8 (di : DiscoveryInfo) (tok : String) :
    async_step_zeroconf_confirm di (some ()) AuthResult.notAuthorizingNewTokens
      = FlowResult.showForm ("zeroconf_confirm") [(("base"), ("failed_to_request_token"))] ∧
    async_step_zeroconf_confirm di (some ()) AuthResult.unavailable
      = FlowResult.showForm ("zeroconf_confirm") [(("base"), ("cannot_connect"))] ∧
    async_step_zeroconf_confirm di (some ()) (AuthResult.success tok)
      = FlowResult.createEntry di.name
          { host := di.host, port := di.port, id := di.id, name := di.name, token := tok } :=
  ⟨rfl, rfl, rfl⟩

/-- Entity state whose cached effect list is `["Rainbow"]`, as after a
successful poll of a device with that single effect. -/
def sRainbow : LightState := { mkLight ("nl") with effects_list := some [("Rainbow")] }

/-- A bare `turn_on(effect="Unknown")` call: no other optional argument. -/
def aUnknown : TurnOnArgs :=
  { brightness := none, hs_color := none, color_temp := none,
    effect := some ("Unknown"), transition := none }

/-- Arguments `turn_on(brightness=10, effect="Unknown")`. -/
def aUnknown10 : TurnOnArgs :=
  { brightness := some 10, hs_color := none, color_temp := none,
    effect := some ("Unknown"), transition := none }

/-- Claim C1 counterexample: commanding the unknown effect with no other
argument raises `ValueError`, but the device call `on = True` has already
been issued before the error — the claim that no device call of any kind
is issued is false even in this minimal case, because the effect check
runs after the switch-on block. -/
theorem claim_C1_counterexample :
    (turn_on sRainbow aUnknown).2 = some PyError.valueError ∧
    (turn_on sRainbow aUnknown).1 = [DeviceCall.setOn true] := by
  constructor <;> decide

/-- Claim C1 (amended): with a truthy effect name absent from the cached
effect list, `turn_on` raises `ValueError` and issues no effect command —
but it has already issued exactly the device calls determined by the
other arguments (hue/saturation, color temperature, and the switch block),
and on the no-transition path that always includes the `on = True` call. -/
theorem claim_C1 (s : LightState) (a : TurnOnArgs) (l : List String) (e : String)
    (hl : s.effects_list = some l) (he : a.effect = some e) (hne : e ≠ "")
    (hmem : e ∉ l) :
    (turn_on s a).2 = some PyError.valueError ∧
    (turn_on s a).1 = preEffectCalls a ∧
    (∀ c ∈ (turn_on s a).1, isEffectCall c = false) ∧
    ((∀ u, a.transition = some u → u = 0) → DeviceCall.setOn true ∈ (turn_on s a).1) := by
  have hfst : (turn_on s a).1 = preEffectCalls a := by
    simp [turn_on, he, hne, hl, hmem]
  have hsnd : (turn_on s a).2 = some PyError.valueError := by
    simp [turn_on, he, hne, hl, hmem]
  refine ⟨hsnd, hfst, ?_, ?_⟩
  · intro c hc
    rw [hfst] at hc
    exact preEffectCalls_no_effect a c hc
  · intro htr
    rw [hfst]
    have hsw : DeviceCall.setOn true ∈ switchCalls a := by
      rcases h : a.transition with _ | u
      · simp [switchCalls, h, immediateCalls]
      · have hu : u = 0 := htr u h
        subst hu
        simp [switchCalls, h, immediateCalls]
    exact List.mem_append_right (hsCalls a ++ ctCalls a) hsw

theorem claim_C1_witness :
    (turn_on sRainbow aUnknown10).2 = some PyError.valueError :=
  (claim_C1 sRainbow aUnknown10 [("Rainbow")] ("Unknown") rfl rfl (by decide) (by decide)).1

/-- Device info snapshot reporting brightness 1 and a selected effect that
is a member of the reported effect list. -/
def infoB1 : Info :=
  { firmwareVersion := ("1.0"), manufacturer := ("Nanoleaf"), model := ("NL22"),
    serialNo := ("S1"),
    state := { onValue := true, brightness := 1, ct := 4000, hue := 10, sat := 20 },
    effectsList := [("Rainbow")], select := ("Rainbow") }

/-- Claim C2 counterexample: for device brightness 1, `round(1 * 2.55) = 3`
but the exposed brightness is `int(1 * 2.55) = 2`: the property truncates
rather than rounds. -/
theorem claim_C2_counterexample :
    round (((1:ℚ)) * ((2.55:ℚ))) = 3 ∧
    brightnessProp (update (mkLight ("nl")) (some infoB1)) = some 2 ∧
    brightnessProp (update (mkLight ("nl")) (some infoB1)) ≠ some 3 := by
  refine ⟨?_, by decide, by decide⟩
  norm_num [round_eq]

set_option maxRecDepth 100000 in
/-- Claim C2 (amended): for every device-stored brightness `b` in [0,100]
cached by a successful update, the exposed brightness equals the
truncation `int(b * 2.55)` of the IEEE-754 double product — which is
`⌊51 b / 20⌋` for `b ≤ 99` and 254 (not 255) at `b = 100` — rather than
`round(b * 2.55)`. -/
theorem claim_C2 (s : LightState) (info : Info) (b : ℕ) (hb : b ≤ 100)
    (hbr : info.state.brightness = b) :
    brightnessProp (update s (some info)) = some (if b = 100 then 254 else 51 * b / 20) := by
  have h1 : brightnessProp (update s (some info)) = some (fmulFloor info.state.brightness) := rfl
  have key : ∀ n, n ≤ 100 → fmulFloor n = if n = 100 then 254 else 51 * n / 20 := by decide
  rw [h1, hbr, key b hb]

theorem claim_C2_witness :
    brightnessProp (update (mkLight ("nl")) (some infoB1))
      = some (if 1 = 100 then 254 else 51 * 1 / 20) :=
  claim_C2 (mkLight ("nl")) infoB1 1 (by decide) rfl

set_option maxRecDepth 100000 in
/-- Claim C3: the brightness scaling pair round-trips within ±1: exposing
a device value `b ≤ 100` through `int(b * 2.55)` and commanding it back
through `int(exposed / 2.55)` (the mapping `turn_on` uses) lands within
one unit of `b`. -/
theorem claim_C3 (b : ℕ) (hb : b ≤ 100) :
    |(fdivFloor (fmulFloor b) : ℤ) - (b : ℤ)| ≤ 1 := by
  have key : ∀ n, n ≤ 100 →
      fdivFloor (fmulFloor n) ≤ n + 1 ∧ n ≤ fdivFloor (fmulFloor n) + 1 := by decide
  obtain ⟨h1, h2⟩ := key b hb
  rw [abs_le]
  omega

theorem claim_C3_witness :
    |(fdivFloor (fmulFloor 77) : ℤ) - ((77:ℕ) : ℤ)| ≤ 1 :=
  claim_C3 77 (by decide)

/-- Claim C4: after a successful update the exposed effect is non-`None`
only when it is a member of the exposed effect list; when the
device-reported selected effect is not in the device-reported list, the
exposed effect is `None` and color temperature and hue/saturation are
cached — and exposed — from the state fields (`ct`, `hue`, `sat`). -/
theorem claim_C4 (s : LightState) (info : Info) :
    (∀ e, (update s (some info)).effect = some e → e ∈ info.effectsList) ∧
    effectListProp (update s (some info)) = some info.effectsList ∧
    (info.select ∉ info.effectsList →
      effectProp (update s (some info)) = none ∧
      (update s (some info)).color_temp = some info.state.ct ∧
      (update s (some info)).hs_color = some (info.state.hue, info.state.sat) ∧
      colorTempProp (update s (some info)) = some (kelvinToMired info.state.ct) ∧
      hsColorProp (update s (some info)) = some (info.state.hue, info.state.sat)) := by
  have heq : (update s (some info)).effect
      = (if info.select ∈ info.effectsList then some info.select else none) := rfl
  by_cases hm : info.select ∈ info.effectsList
  · refine ⟨?_, rfl, fun hn => absurd hm hn⟩
    intro e he
    rw [heq, if_pos hm] at he
    injection he with h2
    exact h2 ▸ hm
  · refine ⟨?_, rfl, fun _ => ?_⟩
    · intro e he
      rw [heq, if_neg hm] at he
      exact Option.noConfusion he
    · refine ⟨?_, ?_, ?_, ?_, ?_⟩ <;>
        simp [update, effectProp, colorTempProp, hsColorProp, hm]

/-- Device info snapshot exhibiting the known anomaly: the synthetic
selected effect name `*Solid*` absent from the reported effect list. -/
def infoSolid : Info :=
  { firmwareVersion := ("1.0"), manufacturer := ("Nanoleaf"), model := ("NL29"),
    serialNo := ("S2"),
    state := { onValue := true, brightness := 55, ct := 4000, hue := 30, sat := 40 },
    effectsList := [("Rainbow")], select := ("*Solid*") }

theorem claim_C4_witness :
    effectProp (update (mkLight ("nl")) (some infoSolid)) = none ∧
    colorTempProp (update (mkLight ("nl")) (some infoSolid)) = some 250 := by
  have h := (claim_C4 (mkLight ("nl")) infoSolid).2.2 (by decide)
  exact ⟨h.1, h.2.2.2.1.trans (by decide)⟩

/-- Claim C9: with a truthy transition, `turn_on` never issues the
explicit `on = True` command nor a direct brightness set — the switch
block reduces to a brightness ramp (present in the issued calls), and
every other call is a hue/saturation, color-temperature or effect
command. -/
theorem claim_C9 (s : LightState) (a : TurnOnArgs) (t : ℚ)
    (h : a.transition = some t) (ht : t ≠ 0) :
    (∃ g, DeviceCall.brightnessTransition g (pyIntTrunc t) ∈ (turn_on s a).1) ∧
    (∀ c ∈ (turn_on s a).1, isPowerCall c = false) := by
  constructor
  · have hramp : ∃ g, DeviceCall.brightnessTransition g (pyIntTrunc t) ∈ rampCalls a t := by
      rcases hb : a.brightness with _ | b
      · exact ⟨100, by simp [rampCalls, hb]⟩
      · by_cases h0 : b = 0
        · exact ⟨100, by simp [rampCalls, hb, h0]⟩
        · exact ⟨fdivFloor b, by simp [rampCalls, hb, h0]⟩
    obtain ⟨g, hg⟩ := hramp
    have hsw : DeviceCall.brightnessTransition g (pyIntTrunc t) ∈ switchCalls a := by
      simpa [switchCalls, h, ht] using hg
    exact ⟨g, turn_on_mem_of_pre s a _
      (List.mem_append_right (hsCalls a ++ ctCalls a) hsw)⟩
  · intro c hc
    rcases turn_on_mem_shape s a c hc with hpre | ⟨x, rfl⟩
    · simp only [preEffectCalls, List.mem_append] at hpre
      rcases hpre with (h1 | h2) | h3
      · exact (hsCalls_shape a c h1).1
      · exact (ctCalls_shape a c h2).1
      · exact switchCalls_truthy_power a t h ht c h3
    · rfl

theorem claim_C9_witness :
    DeviceCall.setOn true ∉ (turn_on (mkLight ("nl"))
      { brightness := some 10, hs_color := none, color_temp := none,
        effect := none, transition := some ((5:ℚ)) }).1 := by
  intro hmem
  have h := (claim_C9 (mkLight ("nl"))
    { brightness := some 10, hs_color := none, color_temp := none,
      effect := none, transition := some ((5:ℚ)) } 5 rfl (by norm_num)).2 _ hmem
  exact absurd h (by decide)

/-- Claim C10: optional arguments are tested for truthiness, so (a)
`brightness=0` with a truthy transition ramps to the 100% default target
as if brightness were unspecified, (b) `brightness=0` without a
transition issues no brightness command at all (only `on = True`), and
(c) `transition=0` behaves exactly as an absent transition. -/
theorem claim_C10 (s : LightState) (t : ℚ) (ht : t ≠ 0)
    (b : Option ℕ) (hsv : Option (ℚ × ℚ)) (ctm : Option ℚ) (e : Option String) :
    (turn_on s { brightness := some 0, hs_color := none, color_temp := none,
                 effect := none, transition := some t }).1
      = [DeviceCall.brightnessTransition 100 (pyIntTrunc t)] ∧
    (turn_on s { brightness := some 0, hs_color := none, color_temp := none,
                 effect := none, transition := none }).1
      = [DeviceCall.setOn true] ∧
    turn_on s { brightness := b, hs_color := hsv, color_temp := ctm,
                effect := e, transition := some 0 }
      = turn_on s { brightness := b, hs_color := hsv, color_temp := ctm,
                    effect := e, transition := none } := by
  refine ⟨?_, ?_, ?_⟩
  · simp [turn_on, preEffectCalls, hsCalls, ctCalls, switchCalls, rampCalls, ht]
  · rfl
  · rfl

theorem claim_C10_witness :
    (turn_on (mkLight ("nl")) { brightness := some 0, hs_color := none,
                                color_temp := none, effect := none,
                                transition := some ((7:ℚ)) }).1
      = [DeviceCall.brightnessTransition 100 7] := by
  rw [(claim_C10 (mkLight ("nl")) 7 (by norm_num) none none none none).1]
  decide

end Nanoleaf
